import Mathlib

/-!
Shallow embedding of the purchase-flow core of the `ezcopper` repository
(`app/amazon_flow.py`, `app/events.py`), together with theorems settling the
frozen claims about its specification.

Page interaction (Playwright) is modelled by explicit page-state structures:
each visibility probe or text extraction the Python code performs becomes a
field of the page model, and each click the code performs is recorded in an
action trace.  Python `float` prices are modelled as rationals; Python string
truthiness (`not s` true for `None` and `""`) is modelled explicitly.
-/

namespace Ezcopper

/-- Python `sub.isPrefix-like` helper: does `needle` begin `hay`?
(char-list version of string comparison used by the containment check). -/
def begins_with : List Char → List Char → Bool
  | [], _ => true
  | _ :: _, [] => false
  | a :: as, b :: bs => a == b && begins_with as bs

/-- Char-list substring containment: `needle` occurs somewhere in `hay`. -/
def contains_chars (needle : List Char) : List Char → Bool
  | [] => begins_with needle []
  | c :: t => begins_with needle (c :: t) || contains_chars needle t

/-- Python `sub in hay` on strings. -/
def py_in (sub hay : String) : Bool :=
  contains_chars sub.data hay.data

/-- Python `s.lower()` (ASCII-adequate model, kernel-computable). -/
def py_lower (s : String) : String := String.mk (s.data.map Char.toLower)

/-- Whitespace trim on a char list: drop leading and trailing whitespace. -/
def strip_chars (l : List Char) : List Char :=
  ((l.dropWhile Char.isWhitespace).reverse.dropWhile Char.isWhitespace).reverse

/-- Python `s.strip()` (ASCII-adequate model, kernel-computable). -/
def py_strip (s : String) : String := String.mk (strip_chars s.data)

/-- Python truthiness of an optional string: `None` and `""` are falsy. -/
def py_truthy : Option String → Bool
  | none => false
  | some s => !(s == "")

/-- `SellerInfo` dataclass from `app/amazon_flow.py`. -/
structure SellerInfo where
  ships_from : Option String := none
  sold_by : Option String := none
  raw_text : String := ""
deriving Repr, DecidableEq

/-- `SellerInfo.is_amazon_shipper`: `if not self.ships_from: return False;
return self.ships_from.strip().lower() == "amazon.com"`. -/
def SellerInfo.is_amazon_shipper (info : SellerInfo) : Bool :=
  match info.ships_from with
  | none => false
  | some s => if s == "" then false else py_lower (py_strip s) == "amazon.com"

/-- `SellerInfo.is_valid_seller`: `if not self.sold_by: return False;
return "amazon" in self.sold_by.lower()`. -/
def SellerInfo.is_valid_seller (info : SellerInfo) : Bool :=
  match info.sold_by with
  | none => false
  | some s => if s == "" then false else py_in "amazon" (py_lower s)

/-- `PriceInfo` dataclass; the Python `float` displayed price is modelled
as a rational number. -/
structure PriceInfo where
  displayed_price : Option ℚ := none
  raw_text : String := ""
deriving Repr, DecidableEq

/-- `FlowState` enum from `app/amazon_flow.py`. -/
inductive FlowState where
  | idle
  | opening_product
  | adding_to_cart
  | waiting_cart_confirmation
  | proceeding_to_checkout
  | on_checkout_page
  | placing_order
  | order_pending_confirmation
  | order_placed
  | error
  | complete
deriving Repr, DecidableEq

/-- `FlowResult` dataclass (the observational `details` map is omitted;
claims refer only to `success`, `state` and `message`). -/
structure FlowResult where
  success : Bool
  state : FlowState
  message : String
deriving Repr, DecidableEq

/-- Helper for Python `x or "Unknown"` used when formatting messages. -/
def or_unknown : Option String → String
  | none => "Unknown"
  | some s => if s == "" then "Unknown" else s

/-- `AmazonFlow._step_validate_seller`, modelled from the point where the
extracted `SellerInfo` is in hand (extraction itself is page IO; the step is
a pure function of the extracted record). -/
def step_validate_seller (seller_info : SellerInfo) : FlowResult :=
  if py_in "no featured offers" (py_lower seller_info.raw_text) then
    { success := false, state := .error,
      message := "No featured offers available" }
  else if !seller_info.is_amazon_shipper then
    { success := false, state := .error,
      message := "Invalid shipper: Ships from " ++ or_unknown seller_info.ships_from }
  else if !seller_info.is_valid_seller then
    { success := false, state := .error,
      message := "Invalid seller: Sold by " ++ or_unknown seller_info.sold_by }
  else
    { success := true, state := .idle, message := "Seller validated" }

/-- Message text for a price mismatch (the Python code interpolates the two
prices with `:.2f`; the model carries them via `toString`). -/
def price_mismatch_msg (displayed expected : ℚ) : String :=
  "Price mismatch: " ++ toString displayed ++ " vs expected " ++ toString expected

/-- `AmazonFlow._step_validate_price`, modelled from the point where the
extracted `PriceInfo` is in hand. -/
def step_validate_price (price_info : PriceInfo) (expected_price : ℚ) : FlowResult :=
  match price_info.displayed_price with
  | none =>
      { success := false, state := .error,
        message := "Could not extract price from page" }
  | some displayed =>
      if displayed ≠ expected_price then
        { success := false, state := .error,
          message := price_mismatch_msg displayed expected_price }
      else
        { success := true, state := .idle, message := "Price validated" }

/-- `AmazonFlow._is_valid_amazon_offer`: shipper must strip+lower to
`"amazon.com"` exactly; seller must contain one of the three keywords
`"amazon.com"`, `"amazon resale"`, `"amazon warehouse"` case-insensitively.
Python truthiness (`ships_from and ...`) makes `None` and `""` fail. -/
def is_valid_amazon_offer (ships_from sold_by : Option String) : Bool :=
  (match ships_from with
   | none => false
   | some s => if s == "" then false else py_lower (py_strip s) == "amazon.com")
  &&
  (match sold_by with
   | none => false
   | some s =>
     if s == "" then false else
       py_in "amazon.com" (py_lower s) || py_in "amazon resale" (py_lower s) ||
         py_in "amazon warehouse" (py_lower s))

/-- One offer card in the AOD (All Offers Display) panel: the seller fields
`_extract_aod_offer_info` would return for it, and whether its own
add-to-cart control is visible within the probe bound. -/
structure AodOffer where
  ships_from : Option String := none
  sold_by : Option String := none
  add_button_visible : Bool := true
deriving Repr, DecidableEq

/-- State of the AOD panel as seen by `_find_valid_amazon_offer_in_aod`:
the "no offers" sentinel, the pinned offer (if visible), and the offer list
in document order (after any "show more" expansion). -/
structure AodPage where
  no_offers_visible : Bool := false
  pinned_offer : Option AodOffer := none
  offer_list : List AodOffer := []
deriving Repr, DecidableEq

/-- Which offer the traversal selected (Python uses `"pinned"` or an int). -/
inductive OfferIndex where
  | pinned
  | at_list (i : Nat)
deriving Repr, DecidableEq

/-- The dict `_find_valid_amazon_offer_in_aod` returns (the `add_button`
handle is implied: a selection is only returned when it is visible). -/
structure OfferSelection where
  offer_index : OfferIndex
  ships_from : Option String
  sold_by : Option String
deriving Repr, DecidableEq

/-- An offer is actually selected by the traversal when it passes
`_is_valid_amazon_offer` AND its own add-to-cart control is visible. -/
def offer_selectable (o : AodOffer) : Bool :=
  is_valid_amazon_offer o.ships_from o.sold_by && o.add_button_visible

/-- The offer-list loop of `_find_valid_amazon_offer_in_aod`: scan cards in
document order starting at index `i`, returning the first selectable one. -/
def find_offer_in_list : List AodOffer → Nat → Option OfferSelection
  | [], _ => none
  | o :: rest, i =>
    if offer_selectable o then some ⟨.at_list i, o.ships_from, o.sold_by⟩
    else find_offer_in_list rest (i + 1)

/-- `AmazonFlow._find_valid_amazon_offer_in_aod`: no-offers sentinel first,
then the pinned offer, then the offer list in document order. -/
def find_valid_amazon_offer_in_aod (pg : AodPage) : Option OfferSelection :=
  if pg.no_offers_visible then none
  else
    match pg.pinned_offer with
    | some p =>
      if offer_selectable p then some ⟨.pinned, p.ships_from, p.sold_by⟩
      else find_offer_in_list pg.offer_list 0
    | none => find_offer_in_list pg.offer_list 0

/-- One selector candidate as `_find_and_click` sees it: whether its
visibility probe succeeds (a probe that raises behaves like an invisible
one — both `continue`), and whether the click on it completes without
raising. -/
structure Candidate where
  visible : Bool
  click_ok : Bool
deriving Repr, DecidableEq

/-- A click attempted by `_find_and_click`: which candidate, and whether the
click completed (a click that raises is caught and the scan continues). -/
structure ClickAttempt where
  index : Nat
  ok : Bool
deriving Repr, DecidableEq

/-- Scan of `_find_and_click` from position `i`: probe candidates in list
order, click the first visible one, return `true` on a completed click. -/
def find_and_click_from : List Candidate → Nat → Bool × List ClickAttempt
  | [], _ => (false, [])
  | c :: rest, i =>
    if c.visible then
      if c.click_ok then (true, [⟨i, true⟩])
      else
        let r := find_and_click_from rest (i + 1)
        (r.1, ⟨i, false⟩ :: r.2)
    else find_and_click_from rest (i + 1)

/-- `AmazonFlow._find_and_click` over a selector-candidate list, returning
its boolean result and the trace of click attempts it performed. -/
def find_and_click (candidates : List Candidate) : Bool × List ClickAttempt :=
  find_and_click_from candidates 0

/-- Page behavior relevant to `_step_place_order`: whether the place-order
control becomes visible within the checkout-load budget, whether the order
confirmation element appears within the operator window (gate on), whether
the automatic click completes (gate off), and whether the confirmation then
appears within the shorter budget. -/
structure PlaceOrderPage where
  button_visible : Bool := true
  operator_confirmed : Bool := true
  click_ok : Bool := true
  auto_confirmed : Bool := true
deriving Repr, DecidableEq

/-- Clicks the flow can perform, recorded in an action trace. -/
inductive FlowAction where
  | click_see_all_options
  | click_aod_add_to_cart (idx : OfferIndex)
  | click_buy_now
  | click_add_to_cart
  | click_go_to_cart
  | click_side_panel_checkout
  | click_cart_checkout
  | click_place_order
deriving Repr, DecidableEq

/-- Actions that put the item in the cart (or buy it directly). -/
def FlowAction.is_cart_click : FlowAction → Bool
  | .click_aod_add_to_cart _ => true
  | .click_buy_now => true
  | .click_add_to_cart => true
  | _ => false

/-- `AmazonFlow._step_place_order` with the `confirm_final_order` gate:
gate on waits for the operator and never clicks; gate off clicks the
place-order control itself and waits for confirmation. -/
def step_place_order (confirm_final_order : Bool) (pg : PlaceOrderPage) :
    FlowResult × List FlowAction :=
  if !pg.button_visible then
    ({ success := false, state := .error,
       message := "Place Order button not found" }, [])
  else if confirm_final_order then
    if pg.operator_confirmed then
      ({ success := true, state := .order_placed,
         message := "Order placed successfully (operator confirmed)" }, [])
    else
      ({ success := false, state := .order_pending_confirmation,
         message := "Timeout waiting for operator confirmation" }, [])
  else
    if pg.click_ok then
      if pg.auto_confirmed then
        ({ success := true, state := .order_placed,
           message := "Order placed successfully" }, [.click_place_order])
      else
        ({ success := false, state := .error,
           message := "Failed to place order" }, [.click_place_order])
    else
      ({ success := false, state := .error,
         message := "Failed to place order" }, [])

/-- `EventType` enum from `app/events.py`. -/
inductive EventType where
  | step
  | message
  | url_detected
  | state_change
  | error
  | action_required
  | order_pending
  | order_placed
  | screenshot
deriving Repr, DecidableEq

/-- `Event` dataclass from `app/events.py` (the `details` dict is modelled
as an association list of strings). -/
structure Event where
  ts : String := ""
  type : EventType := .step
  step : String := ""
  url : String := ""
deriving Repr, DecidableEq

/-- Python `lst[-n:]`.  Note the edge Python gives for `n = 0`:
`lst[-0:]` is `lst[0:]`, the whole list, not the empty list. -/
def py_slice_last (n : Nat) (l : List Event) : List Event :=
  if n == 0 then l else l.drop (l.length - n)

/-- History update performed by `EventBroker.publish`: append the event,
then trim with `self._history[-self._max_history:]` when over the bound. -/
def publish_history (max_history : Nat) (history : List Event) (e : Event) :
    List Event :=
  let h2 := history ++ [e]
  if h2.length > max_history then py_slice_last max_history h2 else h2

/-- `EventBroker.get_history`: `self._history[-limit:]`. -/
def get_history (limit : Nat) (history : List Event) : List Event :=
  py_slice_last limit history

/-- Outcome of the navigation loop of `_step_open_product`: loaded, all retries
timed out, or `page.goto` raised a non-timeout defect (which the
`except PlaywrightTimeout` clause does not catch, so it propagates). -/
inductive OpenOutcome where
  | loaded
  | failed
  | fault (msg : String)
deriving Repr, DecidableEq

/-- Everything the page/environment decides during one `AmazonFlow.execute`
run: one field per probe or interaction the Python code branches on. -/
structure ExecPage where
  start_fault : Option String := none
  open_outcome : OpenOutcome := .loaded
  unavailable : Bool := false
  see_all_options_visible : Bool := false
  aod : AodPage := {}
  std_seller : SellerInfo := {}
  price : PriceInfo := {}
  aod_add_click_ok : Bool := true
  buy_now_visible : Bool := false
  add_to_cart_ok : Bool := true
  cart_confirmation_found : Bool := true
  side_panel_checkout_ok : Bool := true
  go_to_cart_ok : Bool := false
  cart_checkout_ok : Bool := true
  place_order : PlaceOrderPage := {}
deriving Repr, DecidableEq

/-- `AmazonFlow._step_open_product`: success, retries-exhausted failure, or
a propagating defect. -/
def step_open_product (o : OpenOutcome) : Except String FlowResult :=
  match o with
  | .fault e => .error e
  | .failed => .ok { success := false, state := .error,
                     message := "Failed to load product page" }
  | .loaded => .ok { success := true, state := .opening_product,
                     message := "Product page loaded" }

/-- `AmazonFlow._step_wait_cart_confirmation`: succeeds whether or not a
confirmation panel was seen (absence only changes the message). -/
def step_wait_cart_confirmation (found : Bool) : FlowResult :=
  if found then
    { success := true, state := .waiting_cart_confirmation,
      message := "Cart confirmation received" }
  else
    { success := true, state := .waiting_cart_confirmation,
      message := "Proceeding without explicit confirmation" }

/-- `AmazonFlow._step_add_to_cart`: the retried `_find_and_click` over the
add-to-cart selector list, abstracted to whether it eventually clicks. -/
def step_add_to_cart (pg : ExecPage) : FlowResult × List FlowAction :=
  if pg.add_to_cart_ok then
    ({ success := true, state := .adding_to_cart,
       message := "Add to cart clicked" }, [.click_add_to_cart])
  else
    ({ success := false, state := .error,
       message := "Add to Cart button not found" }, [])

/-- `AmazonFlow._step_proceed_to_checkout`: side-panel checkout first, then
the go-to-cart click, then the retried cart-page checkout click. -/
def step_proceed_to_checkout (pg : ExecPage) : FlowResult × List FlowAction :=
  if pg.side_panel_checkout_ok then
    ({ success := true, state := .on_checkout_page,
       message := "Proceeded to checkout from side panel" },
     [.click_side_panel_checkout])
  else
    let t0 : List FlowAction :=
      if pg.go_to_cart_ok then [.click_go_to_cart] else []
    if pg.cart_checkout_ok then
      ({ success := true, state := .on_checkout_page,
         message := "Proceeded to checkout from cart" },
       t0 ++ [.click_cart_checkout])
    else
      ({ success := false, state := .error,
         message := "Could not proceed to checkout" }, t0)

/-- Steps 7-8 of `execute`: cart confirmation and proceed-to-checkout when
add-to-cart was used (both skipped when buy-now was used), then place
order. -/
def after_cart (confirm : Bool) (pg : ExecPage) (used_buy_now : Bool) :
    FlowResult × List FlowAction :=
  if used_buy_now then step_place_order confirm pg.place_order
  else
    let _ := step_wait_cart_confirmation pg.cart_confirmation_found
    let pc := step_proceed_to_checkout pg
    if !pc.1.success then pc
    else
      let po := step_place_order confirm pg.place_order
      (po.1, pc.2 ++ po.2)

/-- Step 6 of `execute` on the AOD path: click the own control of the selected offer:
add-to-cart control (a raising click is caught and fails the flow). -/
def aod_cart_stage (confirm : Bool) (pg : ExecPage) (sel : OfferSelection) :
    FlowResult × List FlowAction :=
  if pg.aod_add_click_ok then
    let rest := after_cart confirm pg false
    (rest.1, .click_aod_add_to_cart sel.offer_index :: rest.2)
  else
    ({ success := false, state := .error,
       message := "Failed to click Add to Cart for selected offer" },
     [.click_aod_add_to_cart sel.offer_index])

/-- Step 6 of `execute` on the standard path: try buy-now first (straight
to checkout), else add to cart. -/
def standard_cart_stage (confirm : Bool) (pg : ExecPage) :
    FlowResult × List FlowAction :=
  if pg.buy_now_visible then
    let rest := after_cart confirm pg true
    (rest.1, .click_buy_now :: rest.2)
  else
    let atc := step_add_to_cart pg
    if !atc.1.success then atc
    else
      let rest := after_cart confirm pg false
      (rest.1, atc.2 ++ rest.2)

/-- Step 5 of `execute`: price validation, only when an expected price was
supplied; `some r` is the failure result that terminates the flow. -/
def price_gate (pg : ExecPage) : Option ℚ → Option FlowResult
  | none => none
  | some expected =>
    let r := step_validate_price pg.price expected
    if r.success then none else some r

/-- The body of `AmazonFlow.execute` (the code inside its `try:`), as a
function of the page model; `Except.error` is a fault that reaches the
flow-boundary handler.  The second component is the trace of clicks
performed before the exit. -/
def execute_body (confirm is_aod_url : Bool) (expected_price : Option ℚ)
    (pg : ExecPage) : Except String FlowResult × List FlowAction :=
  match pg.start_fault with
  | some e => (.error e, [])
  | none =>
    match step_open_product pg.open_outcome with
    | .error e => (.error e, [])
    | .ok r =>
      if !r.success then (.ok r, [])
      else if pg.unavailable then
        (.ok { success := false, state := .error,
               message := "Product is currently unavailable" }, [])
      else
        let clicked_see_all := !is_aod_url && pg.see_all_options_visible
        let tr0 : List FlowAction :=
          if clicked_see_all then [.click_see_all_options] else []
        let is_aod := is_aod_url || clicked_see_all
        if is_aod then
          match find_valid_amazon_offer_in_aod pg.aod with
          | none =>
            (.ok { success := false, state := .error,
                   message := "No valid Amazon offer found in AOD" }, tr0)
          | some sel =>
            match price_gate pg expected_price with
            | some bad => (.ok bad, tr0)
            | none =>
              let rest := aod_cart_stage confirm pg sel
              (.ok rest.1, tr0 ++ rest.2)
        else
          let sv := step_validate_seller pg.std_seller
          if !sv.success then (.ok sv, tr0)
          else
            match price_gate pg expected_price with
            | some bad => (.ok bad, tr0)
            | none =>
              let rest := standard_cart_stage confirm pg
              (.ok rest.1, tr0 ++ rest.2)

/-- The failure result the flow-boundary `except Exception` handler builds. -/
def flow_exception_result (e : String) : FlowResult :=
  { success := false, state := .error, message := "Flow exception: " ++ e }

/-- `AmazonFlow.execute`: the body wrapped in the boundary handler that
converts any fault into a failure `FlowResult` instead of propagating. -/
def execute (confirm is_aod_url : Bool) (expected_price : Option ℚ)
    (pg : ExecPage) : FlowResult × List FlowAction :=
  match execute_body confirm is_aod_url expected_price pg with
  | (.ok r, tr) => (r, tr)
  | (.error e, tr) => (flow_exception_result e, tr)

/-! Helper lemmas about the char-list string operations. -/

lemma begins_with_mono :
    ∀ (n2 n1 h : List Char), begins_with n2 n1 = true →
      begins_with n1 h = true → begins_with n2 h = true := by
  intro n2
  induction n2 with
  | nil => intro n1 h _ _; rfl
  | cons a as ih =>
    intro n1 h h1 h2
    cases n1 with
    | nil => simp [begins_with] at h1
    | cons b bs =>
      cases h with
      | nil => simp [begins_with] at h2
      | cons c cs =>
        simp only [begins_with, Bool.and_eq_true, beq_iff_eq] at h1 h2 ⊢
        exact ⟨h1.1.trans h2.1, ih bs cs h1.2 h2.2⟩

lemma contains_chars_mono (n2 n1 : List Char)
    (hpre : begins_with n2 n1 = true) :
    ∀ h, contains_chars n1 h = true → contains_chars n2 h = true := by
  intro h
  induction h with
  | nil =>
    intro hc
    cases n1 with
    | nil =>
      cases n2 with
      | nil => rfl
      | cons a as => simp [begins_with] at hpre
    | cons b bs => simp [contains_chars, begins_with] at hc
  | cons c t ih =>
    intro hc
    simp only [contains_chars, Bool.or_eq_true] at hc ⊢
    rcases hc with hc | hc
    · exact Or.inl (begins_with_mono n2 n1 (c :: t) hpre hc)
    · exact Or.inr (ih hc)

lemma py_in_mono (sub1 sub2 hay : String)
    (hpre : begins_with sub2.data sub1.data = true)
    (h : py_in sub1 hay = true) : py_in sub2 hay = true :=
  contains_chars_mono sub2.data sub1.data hpre hay.data h

/-! Characterizations of the `SellerInfo` predicates. -/

lemma is_amazon_shipper_iff (info : SellerInfo) :
    info.is_amazon_shipper = true ↔
      ∃ s, info.ships_from = some s ∧ py_lower (py_strip s) = "amazon.com" := by
  obtain ⟨sf, sb, rt⟩ := info
  cases sf with
  | none => simp [SellerInfo.is_amazon_shipper]
  | some s =>
    by_cases hs : s = ""
    · subst hs
      simp only [SellerInfo.is_amazon_shipper]
      constructor
      · intro h; simp at h
      · rintro ⟨s', hs', heq⟩
        rw [Option.some_inj] at hs'
        subst hs'
        exact absurd heq (by decide)
    · simp only [SellerInfo.is_amazon_shipper]
      rw [if_neg (by simpa using hs)]
      simp only [beq_iff_eq, Option.some_inj]
      constructor
      · intro h; exact ⟨s, rfl, h⟩
      · rintro ⟨s', hs', heq⟩; subst hs'; exact heq

lemma is_valid_seller_iff (info : SellerInfo) :
    info.is_valid_seller = true ↔
      ∃ s, info.sold_by = some s ∧ py_in "amazon" (py_lower s) = true := by
  obtain ⟨sf, sb, rt⟩ := info
  cases sb with
  | none => simp [SellerInfo.is_valid_seller]
  | some s =>
    by_cases hs : s = ""
    · subst hs
      simp only [SellerInfo.is_valid_seller]
      constructor
      · intro h; simp at h
      · rintro ⟨s', hs', heq⟩
        rw [Option.some_inj] at hs'
        subst hs'
        exact absurd heq (by decide)
    · simp only [SellerInfo.is_valid_seller]
      rw [if_neg (by simpa using hs)]
      simp only [Option.some_inj]
      constructor
      · intro h; exact ⟨s, rfl, h⟩
      · rintro ⟨s', hs', heq⟩; subst hs'; exact heq

lemma step_validate_seller_success_iff (info : SellerInfo) :
    (step_validate_seller info).success = true ↔
      (py_in "no featured offers" (py_lower info.raw_text) = false ∧
        info.is_amazon_shipper = true ∧ info.is_valid_seller = true) := by
  unfold step_validate_seller
  cases h1 : py_in "no featured offers" (py_lower info.raw_text) with
  | true => simp [h1]
  | false =>
    cases h2 : info.is_amazon_shipper with
    | false => simp [h1, h2]
    | true =>
      cases h3 : info.is_valid_seller with
      | false => simp [h1, h2, h3]
      | true => simp [h1, h2, h3]

/-- C1 counterexample: a `SellerInfo` whose `raw_text` contains the
"no featured offers" sentinel fails `_step_validate_seller` even though
`is_amazon_shipper()` and `is_valid_seller()` are both true, so validation
passing is not equivalent to the two predicates holding. -/
theorem seller_validation_sentinel_counterexample :
    SellerInfo.is_amazon_shipper
        { ships_from := some "Amazon.com", sold_by := some "Amazon.com",
          raw_text := "No featured offers available" } = true ∧
    SellerInfo.is_valid_seller
        { ships_from := some "Amazon.com", sold_by := some "Amazon.com",
          raw_text := "No featured offers available" } = true ∧
    (step_validate_seller
        { ships_from := some "Amazon.com", sold_by := some "Amazon.com",
          raw_text := "No featured offers available" }).success = false := by
  refine ⟨by decide, by decide, by decide⟩

/-- C1 (amended): `is_amazon_shipper()` holds exactly when `ships_from`
stripped and lower-cased equals "amazon.com"; `is_valid_seller()` holds
exactly when `sold_by` contains "amazon" case-insensitively;
`_step_validate_seller` passes iff both predicates hold AND the raw text
does not contain the "no featured offers" sentinel; it fails whenever
either predicate is false. -/
theorem seller_validation_characterization (info : SellerInfo) :
    (info.is_amazon_shipper = true ↔
      ∃ s, info.ships_from = some s ∧ py_lower (py_strip s) = "amazon.com") ∧
    (info.is_valid_seller = true ↔
      ∃ s, info.sold_by = some s ∧ py_in "amazon" (py_lower s) = true) ∧
    ((step_validate_seller info).success = true ↔
      (py_in "no featured offers" (py_lower info.raw_text) = false ∧
        info.is_amazon_shipper = true ∧ info.is_valid_seller = true)) ∧
    ((info.is_amazon_shipper = false ∨ info.is_valid_seller = false) →
      (step_validate_seller info).success = false) := by
  refine ⟨is_amazon_shipper_iff info, is_valid_seller_iff info,
    step_validate_seller_success_iff info, ?_⟩
  intro hbad
  cases hsucc : (step_validate_seller info).success with
  | false => rfl
  | true =>
    obtain ⟨-, h2, h3⟩ := (step_validate_seller_success_iff info).mp hsucc
    rcases hbad with hbad | hbad
    · rw [h2] at hbad; cases hbad
    · rw [h3] at hbad; cases hbad

/-- C1 witness: a whitespace-and-casing variant of the canonical shipper
string, with a resale sub-brand seller, passes validation. -/
theorem seller_validation_characterization_witness :
    (step_validate_seller
        { ships_from := some "  AMAZON.Com ", sold_by := some "Amazon Resale",
          raw_text := "Ships from and sold by" }).success = true :=
  (seller_validation_characterization _).2.2.1.mpr (by refine ⟨by decide, by decide, by decide⟩)

/-- C2: price validation passes iff the displayed price is exactly equal to
the expected price; in particular 19.99 against 19.99 passes and 19.98
against 19.99 fails — no rounding or tolerance band. -/
theorem price_validation_exact_equality :
    (∀ (d e : ℚ) (raw : String),
      (step_validate_price { displayed_price := some d, raw_text := raw } e).success
        = true ↔ d = e) ∧
    (step_validate_price { displayed_price := some 19.99, raw_text := "$19.99" }
        19.99).success = true ∧
    (step_validate_price { displayed_price := some 19.98, raw_text := "$19.98" }
        19.99).success = false := by
  have hgen : ∀ (d e : ℚ) (raw : String),
      (step_validate_price { displayed_price := some d, raw_text := raw } e).success
        = true ↔ d = e := by
    intro d e raw
    unfold step_validate_price
    by_cases h : d = e
    · simp [h]
    · simp [h]
  refine ⟨hgen, (hgen 19.99 19.99 "$19.99").mpr rfl, ?_⟩
  cases hs : (step_validate_price
      { displayed_price := some 19.98, raw_text := "$19.98" } 19.99).success with
  | false => rfl
  | true =>
    have : (19.98 : ℚ) = 19.99 := (hgen 19.98 19.99 "$19.98").mp hs
    norm_num at this

/-- C5 counterexample: `sold_by = "Amazon"` (shipping from "Amazon.com")
satisfies `is_amazon_shipper` and `is_valid_seller` but fails
`_is_valid_amazon_offer`, whose seller test requires one of the longer
keywords, so the two predicates are not extensionally equal. -/
theorem offer_predicate_equivalence_counterexample :
    SellerInfo.is_amazon_shipper
        { ships_from := some "Amazon.com", sold_by := some "Amazon",
          raw_text := "" } = true ∧
    SellerInfo.is_valid_seller
        { ships_from := some "Amazon.com", sold_by := some "Amazon",
          raw_text := "" } = true ∧
    is_valid_amazon_offer (some "Amazon.com") (some "Amazon") = false := by
  refine ⟨by decide, by decide, by decide⟩

/-- C5 (amended): the offer predicate `_is_valid_amazon_offer` agrees with
`is_amazon_shipper` on the shipper side, but its seller side requires
`sold_by` to contain one of "amazon.com", "amazon resale",
"amazon warehouse" case-insensitively — strictly stronger than the
single-offer validator containment of "amazon"; hence every pair the
offer predicate accepts is also accepted by the single-offer validator,
but not conversely. -/
theorem offer_predicate_refinement (sf sb : Option String) :
    (is_valid_amazon_offer sf sb = true ↔
      (SellerInfo.is_amazon_shipper { ships_from := sf, sold_by := sb, raw_text := "" } = true ∧
        ∃ s, sb = some s ∧
          (py_in "amazon.com" (py_lower s) = true ∨
            py_in "amazon resale" (py_lower s) = true ∨
            py_in "amazon warehouse" (py_lower s) = true))) ∧
    (is_valid_amazon_offer sf sb = true →
      SellerInfo.is_amazon_shipper { ships_from := sf, sold_by := sb, raw_text := "" } = true ∧
      SellerInfo.is_valid_seller { ships_from := sf, sold_by := sb, raw_text := "" } = true) := by
  have hchar : is_valid_amazon_offer sf sb = true ↔
      (SellerInfo.is_amazon_shipper { ships_from := sf, sold_by := sb, raw_text := "" } = true ∧
        ∃ s, sb = some s ∧
          (py_in "amazon.com" (py_lower s) = true ∨
            py_in "amazon resale" (py_lower s) = true ∨
            py_in "amazon warehouse" (py_lower s) = true)) := by
    unfold is_valid_amazon_offer SellerInfo.is_amazon_shipper
    cases sf with
    | none => simp
    | some s =>
      cases sb with
      | none => simp
      | some t =>
        by_cases hs : s = ""
        · subst hs; simp
        · by_cases ht : t = ""
          · subst ht
            simp only [hs, Option.some_inj]
            constructor
            · intro h; simp at h
            · rintro ⟨-, t', ht', hcont⟩
              subst ht'
              rcases hcont with h | h | h <;> exact absurd h (by decide)
          · simp only [hs, ht, Option.some_inj, if_false, Bool.and_eq_true,
              Bool.or_eq_true, beq_iff_eq, if_neg hs, if_neg ht]
            constructor
            · rintro ⟨h1, h2⟩
              exact ⟨h1, t, rfl, by tauto⟩
            · rintro ⟨h1, t', ht', hcont⟩
              subst ht'
              exact ⟨h1, by tauto⟩
  refine ⟨hchar, ?_⟩
  intro h
  obtain ⟨h1, t, ht, hcont⟩ := hchar.mp h
  refine ⟨h1, ?_⟩
  rw [is_valid_seller_iff]
  refine ⟨t, ht, ?_⟩
  rcases hcont with hc | hc | hc
  · exact py_in_mono "amazon.com" "amazon" (py_lower t) (by decide) hc
  · exact py_in_mono "amazon resale" "amazon" (py_lower t) (by decide) hc
  · exact py_in_mono "amazon warehouse" "amazon" (py_lower t) (by decide) hc

/-- C5 witness: an "Amazon Warehouse" offer passes the offer predicate and
therefore also both predicates of the single-offer validator. -/
theorem offer_predicate_refinement_witness :
    SellerInfo.is_valid_seller
      { ships_from := some "Amazon.com", sold_by := some "Amazon Warehouse",
        raw_text := "" } = true :=
  ((offer_predicate_refinement (some "Amazon.com") (some "Amazon Warehouse")).2
    (by decide)).2

/-- C10: a `SellerInfo` with a missing (None or empty) `ships_from` never
satisfies `is_amazon_shipper`, one with a missing `sold_by` never satisfies
`is_valid_seller`, and `_step_validate_seller` fails whenever either field
is missing. -/
theorem missing_seller_fields_never_validate (info : SellerInfo) :
    ((info.ships_from = none ∨ info.ships_from = some "") →
      info.is_amazon_shipper = false) ∧
    ((info.sold_by = none ∨ info.sold_by = some "") →
      info.is_valid_seller = false) ∧
    ((info.ships_from = none ∨ info.ships_from = some "" ∨
        info.sold_by = none ∨ info.sold_by = some "") →
      (step_validate_seller info).success = false) := by
  have hship : (info.ships_from = none ∨ info.ships_from = some "") →
      info.is_amazon_shipper = false := by
    intro h
    cases hv : info.is_amazon_shipper with
    | false => rfl
    | true =>
      obtain ⟨s, hs, heq⟩ := (is_amazon_shipper_iff info).mp hv
      rcases h with h | h <;> rw [h] at hs
      · cases hs
      · rw [Option.some_inj] at hs
        subst hs
        exact absurd heq (by decide)
  have hsold : (info.sold_by = none ∨ info.sold_by = some "") →
      info.is_valid_seller = false := by
    intro h
    cases hv : info.is_valid_seller with
    | false => rfl
    | true =>
      obtain ⟨s, hs, heq⟩ := (is_valid_seller_iff info).mp hv
      rcases h with h | h <;> rw [h] at hs
      · cases hs
      · rw [Option.some_inj] at hs
        subst hs
        exact absurd heq (by decide)
  refine ⟨hship, hsold, ?_⟩
  intro h
  cases hsucc : (step_validate_seller info).success with
  | false => rfl
  | true =>
    obtain ⟨-, h2, h3⟩ := (step_validate_seller_success_iff info).mp hsucc
    rcases h with h | h | h | h
    · rw [hship (Or.inl h)] at h2; cases h2
    · rw [hship (Or.inr h)] at h2; cases h2
    · rw [hsold (Or.inl h)] at h3; cases h3
    · rw [hsold (Or.inr h)] at h3; cases h3

/-- C10 witness: a record that resolved neither field fails validation. -/
theorem missing_seller_fields_never_validate_witness :
    (step_validate_seller
        { ships_from := none, sold_by := some "", raw_text := "" }).success
      = false :=
  (missing_seller_fields_never_validate _).2.2 (Or.inl rfl)

/-- C3: with the confirmation gate on, `_step_place_order` performs no click
at all; if the place-order control is present and the confirmation element
does not appear within the operator window, the result is a failure in
state `order_pending_confirmation`, not `error`.  With the gate off, the
step clicks the control itself, and absence of the confirmation element
yields a failure in state `error`. -/
theorem place_order_confirmation_gate (pg : PlaceOrderPage) :
    ((step_place_order true pg).2 = []) ∧
    (pg.button_visible = true → pg.operator_confirmed = false →
      (step_place_order true pg).1 =
        { success := false, state := .order_pending_confirmation,
          message := "Timeout waiting for operator confirmation" }) ∧
    (pg.button_visible = true → pg.click_ok = true →
      (step_place_order false pg).2 = [.click_place_order]) ∧
    (pg.button_visible = true → pg.click_ok = true → pg.auto_confirmed = false →
      (step_place_order false pg).1 =
        { success := false, state := .error,
          message := "Failed to place order" }) := by
  obtain ⟨b, oc, ck, ac⟩ := pg
  refine ⟨?_, ?_, ?_, ?_⟩
  · cases b <;> cases oc <;> rfl
  · rintro rfl rfl; rfl
  · rintro rfl rfl
    cases ac <;> rfl
  · rintro rfl rfl rfl; rfl

/-- C3 witness: gate on, control present, operator never acts — the step
returns pending-confirmation and the trace is empty; gate off with the
same page clicks and errors out. -/
theorem place_order_confirmation_gate_witness :
    (step_place_order true
        { button_visible := true, operator_confirmed := false,
          click_ok := true, auto_confirmed := false }).1 =
      { success := false, state := .order_pending_confirmation,
        message := "Timeout waiting for operator confirmation" } :=
  (place_order_confirmation_gate _).2.1 rfl rfl

lemma find_offer_in_list_nil (k : Nat) : find_offer_in_list [] k = none := rfl

lemma find_offer_in_list_cons_sel (o : AodOffer) (rest : List AodOffer) (k : Nat)
    (h : offer_selectable o = true) :
    find_offer_in_list (o :: rest) k =
      some ⟨.at_list k, o.ships_from, o.sold_by⟩ := by
  simp [find_offer_in_list, h]

lemma find_offer_in_list_cons_unsel (o : AodOffer) (rest : List AodOffer) (k : Nat)
    (h : offer_selectable o = false) :
    find_offer_in_list (o :: rest) k = find_offer_in_list rest (k + 1) := by
  simp [find_offer_in_list, h]

/-- Characterization of the offer-list scan: `none` means no selectable
card; a selection at absolute index `k + i` names a selectable card at
relative position `i` all of whose predecessors are unselectable. -/
lemma find_offer_in_list_spec (l : List AodOffer) :
    ∀ k : Nat,
      (find_offer_in_list l k = none ↔ ∀ o ∈ l, offer_selectable o = false) ∧
      (∀ sel, find_offer_in_list l k = some sel →
        ∃ i o, l[i]? = some o ∧ offer_selectable o = true ∧
          sel = ⟨.at_list (k + i), o.ships_from, o.sold_by⟩ ∧
          ∀ j, j < i → ∀ o', l[j]? = some o' → offer_selectable o' = false) := by
  induction l with
  | nil =>
    intro k
    refine ⟨by simp [find_offer_in_list_nil], ?_⟩
    intro sel h
    rw [find_offer_in_list_nil] at h
    cases h
  | cons o rest ih =>
    intro k
    cases hsel : offer_selectable o with
    | true =>
      refine ⟨⟨fun h => ?_, fun h => ?_⟩, fun sel h => ?_⟩
      · rw [find_offer_in_list_cons_sel o rest k hsel] at h
        cases h
      · exact absurd (h o (by simp)) (by simp [hsel])
      · rw [find_offer_in_list_cons_sel o rest k hsel, Option.some_inj] at h
        refine ⟨0, o, by simp, hsel, by simp [← h], ?_⟩
        intro j hj o' _
        exact absurd hj (Nat.not_lt_zero j)
    | false =>
      refine ⟨?_, ?_⟩
      · rw [find_offer_in_list_cons_unsel o rest k hsel, (ih (k + 1)).1]
        constructor
        · intro h o' ho'
          rcases List.mem_cons.mp ho' with rfl | ho'
          · exact hsel
          · exact h o' ho'
        · intro h o' ho'
          exact h o' (List.mem_cons_of_mem _ ho')
      · intro sel h
        rw [find_offer_in_list_cons_unsel o rest k hsel] at h
        obtain ⟨i, o', hget, hsel', heq, hpred⟩ := (ih (k + 1)).2 sel h
        have hidx : k + 1 + i = k + (i + 1) := by omega
        refine ⟨i + 1, o', by simpa using hget, hsel', by rw [heq, hidx], ?_⟩
        intro j hj o'' hget''
        cases j with
        | zero =>
          have ho'' : o = o'' := by simpa using hget''
          rw [← ho'']
          exact hsel
        | succ j' =>
          exact hpred j' (by omega) o'' (by simpa using hget'')

/-- Completeness of the offer-list scan: a selectable card all of whose
predecessors are unselectable is the one the scan returns. -/
lemma find_offer_in_list_complete :
    ∀ (l : List AodOffer) (k i : Nat) (o : AodOffer),
      l[i]? = some o → offer_selectable o = true →
      (∀ j, j < i → ∀ o', l[j]? = some o' → offer_selectable o' = false) →
      find_offer_in_list l k = some ⟨.at_list (k + i), o.ships_from, o.sold_by⟩ := by
  intro l
  induction l with
  | nil =>
    intro k i o hget _ _
    rw [List.getElem?_nil] at hget
    cases hget
  | cons c rest ih =>
    intro k i o hget hgood hpred
    cases i with
    | zero =>
      have hc : c = o := by simpa using hget
      subst hc
      rw [find_offer_in_list_cons_sel c rest k hgood]
      simp
    | succ i' =>
      have hc : offer_selectable c = false := hpred 0 (by omega) c (by simp)
      have hshift : ∀ j, j < i' → ∀ o', rest[j]? = some o' →
          offer_selectable o' = false := by
        intro j hj o' ho'
        exact hpred (j + 1) (by omega) o' (by simpa using ho')
      have hrec := ih (k + 1) i' o (by simpa using hget) hgood hshift
      rw [find_offer_in_list_cons_unsel c rest k hc, hrec]
      have harr : k + 1 + i' = k + (i' + 1) := by omega
      rw [harr]

lemma find_valid_aod_no_offers (pinned : Option AodOffer) (l : List AodOffer) :
    find_valid_amazon_offer_in_aod ⟨true, pinned, l⟩ = none := rfl

lemma find_valid_aod_no_pinned (l : List AodOffer) :
    find_valid_amazon_offer_in_aod ⟨false, none, l⟩ = find_offer_in_list l 0 := rfl

lemma find_valid_aod_pinned_sel (p : AodOffer) (l : List AodOffer)
    (hp : offer_selectable p = true) :
    find_valid_amazon_offer_in_aod ⟨false, some p, l⟩ =
      some ⟨.pinned, p.ships_from, p.sold_by⟩ := by
  simp [find_valid_amazon_offer_in_aod, hp]

lemma find_valid_aod_pinned_unsel (p : AodOffer) (l : List AodOffer)
    (hp : offer_selectable p = false) :
    find_valid_amazon_offer_in_aod ⟨false, some p, l⟩ = find_offer_in_list l 0 := by
  simp [find_valid_amazon_offer_in_aod, hp]

/-- C4 counterexample: a pinned offer that satisfies the seller-validity
predicate but whose own add-to-cart control is not visible is skipped, and
the traversal returns the offer-list card at index 0 instead — so "returned
if it satisfies the seller-validity predicate" does not hold as stated. -/
theorem offer_traversal_pinned_without_button_counterexample :
    is_valid_amazon_offer (some "Amazon.com") (some "Amazon.com") = true ∧
    find_valid_amazon_offer_in_aod
        { no_offers_visible := false,
          pinned_offer := some
            { ships_from := some "Amazon.com", sold_by := some "Amazon.com",
              add_button_visible := false },
          offer_list := [
            { ships_from := some "Amazon.com", sold_by := some "Amazon.com",
              add_button_visible := true }] } =
      some ⟨.at_list 0, some "Amazon.com", some "Amazon.com"⟩ := by
  refine ⟨by decide, by decide⟩

/-- C4 (amended): the traversal short-circuits to no result on the
"no offers" sentinel; otherwise the pinned offer is returned if and only if
it is selectable (satisfies the seller-validity predicate AND its own
add-to-cart control is visible); when the pinned offer is absent or
unselectable, the first selectable card of the offer list in document order
IS returned (completeness) and any returned list card is exactly that first
selectable card (soundness); exhausting both stages yields no result. -/
theorem offer_traversal_order (pg : AodPage) :
    (pg.no_offers_visible = true → find_valid_amazon_offer_in_aod pg = none) ∧
    (∀ p, pg.no_offers_visible = false → pg.pinned_offer = some p →
      (find_valid_amazon_offer_in_aod pg = some ⟨.pinned, p.ships_from, p.sold_by⟩
        ↔ offer_selectable p = true)) ∧
    (∀ i o, pg.no_offers_visible = false →
      (∀ p, pg.pinned_offer = some p → offer_selectable p = false) →
      pg.offer_list[i]? = some o → offer_selectable o = true →
      (∀ j, j < i → ∀ o', pg.offer_list[j]? = some o' →
        offer_selectable o' = false) →
      find_valid_amazon_offer_in_aod pg =
        some ⟨.at_list i, o.ships_from, o.sold_by⟩) ∧
    (∀ sel i, find_valid_amazon_offer_in_aod pg = some sel →
      sel.offer_index = .at_list i →
      ∃ o, pg.offer_list[i]? = some o ∧ offer_selectable o = true ∧
        sel.ships_from = o.ships_from ∧ sel.sold_by = o.sold_by ∧
        ∀ j, j < i → ∀ o', pg.offer_list[j]? = some o' →
          offer_selectable o' = false) ∧
    (pg.no_offers_visible = false →
      (∀ p, pg.pinned_offer = some p → offer_selectable p = false) →
      (∀ o ∈ pg.offer_list, offer_selectable o = false) →
      find_valid_amazon_offer_in_aod pg = none) := by
  obtain ⟨noOff, pinned, l⟩ := pg
  refine ⟨?_, ?_, ?_, ?_, ?_⟩
  · rintro rfl
    exact find_valid_aod_no_offers pinned l
  · rintro p rfl rfl
    constructor
    · intro hres
      cases hp : offer_selectable p with
      | true => rfl
      | false =>
        rw [find_valid_aod_pinned_unsel p l hp] at hres
        obtain ⟨i, o, hget, hgood, heq, hpred⟩ :=
          (find_offer_in_list_spec l 0).2 _ hres
        exact absurd (congrArg OfferSelection.offer_index heq) (by simp)
    · intro hp
      exact find_valid_aod_pinned_sel p l hp
  · rintro i o rfl hpin hget hgood hpred
    have hfirst := find_offer_in_list_complete l 0 i o hget hgood hpred
    cases pinned with
    | none =>
      rw [find_valid_aod_no_pinned l]
      simpa using hfirst
    | some p =>
      rw [find_valid_aod_pinned_unsel p l (hpin p rfl)]
      simpa using hfirst
  · intro sel i hres hidx
    have hlist : find_offer_in_list l 0 = some sel →
        ∃ o, l[i]? = some o ∧ offer_selectable o = true ∧
          sel.ships_from = o.ships_from ∧ sel.sold_by = o.sold_by ∧
          ∀ j, j < i → ∀ o', l[j]? = some o' → offer_selectable o' = false := by
      intro hres'
      obtain ⟨i', o, hget, hgood, heq, hpred⟩ :=
        (find_offer_in_list_spec l 0).2 sel hres'
      have hi : i' = i := by
        rw [heq] at hidx
        simpa using hidx
      subst hi
      refine ⟨o, by simpa using hget, hgood, by rw [heq], by rw [heq], ?_⟩
      intro j hj o' hget'
      exact hpred j hj o' hget'
    cases noOff with
    | true =>
      rw [find_valid_aod_no_offers pinned l] at hres
      cases hres
    | false =>
      cases pinned with
      | none =>
        rw [find_valid_aod_no_pinned l] at hres
        exact hlist hres
      | some p =>
        cases hp : offer_selectable p with
        | true =>
          rw [find_valid_aod_pinned_sel p l hp, Option.some_inj] at hres
          rw [← hres] at hidx
          cases hidx
        | false =>
          rw [find_valid_aod_pinned_unsel p l hp] at hres
          exact hlist hres
  · rintro rfl hpin hlistbad
    cases pinned with
    | none =>
      rw [find_valid_aod_no_pinned l]
      exact (find_offer_in_list_spec l 0).1.mpr hlistbad
    | some p =>
      rw [find_valid_aod_pinned_unsel p l (hpin p rfl)]
      exact (find_offer_in_list_spec l 0).1.mpr hlistbad

/-- C4 witness: with an unselectable pinned offer and list cards 0 and 1
failing the predicate while card 2 passes, the traversal returns the card
at index 2; a selectable pinned offer is returned as the pinned selection. -/
theorem offer_traversal_order_witness :
    find_valid_amazon_offer_in_aod
        { no_offers_visible := false,
          pinned_offer := some
            { ships_from := some "Third Party Co", sold_by := some "Third Party Co",
              add_button_visible := true },
          offer_list := [
            { ships_from := some "Warehouse LLC", sold_by := some "Warehouse LLC",
              add_button_visible := true },
            { ships_from := some "Amazon.com", sold_by := some "Other Seller",
              add_button_visible := true },
            { ships_from := some "Amazon.com", sold_by := some "Amazon Warehouse",
              add_button_visible := true }] } =
      some ⟨.at_list 2, some "Amazon.com", some "Amazon Warehouse"⟩ ∧
    find_valid_amazon_offer_in_aod
        { no_offers_visible := false,
          pinned_offer := some
            { ships_from := some "Amazon.com", sold_by := some "Amazon Warehouse",
              add_button_visible := true },
          offer_list := [] } =
      some ⟨.pinned, some "Amazon.com", some "Amazon Warehouse"⟩ := by
  constructor
  · exact (offer_traversal_order
        { no_offers_visible := false,
          pinned_offer := some
            { ships_from := some "Third Party Co", sold_by := some "Third Party Co",
              add_button_visible := true },
          offer_list := [
            { ships_from := some "Warehouse LLC", sold_by := some "Warehouse LLC",
              add_button_visible := true },
            { ships_from := some "Amazon.com", sold_by := some "Other Seller",
              add_button_visible := true },
            { ships_from := some "Amazon.com", sold_by := some "Amazon Warehouse",
              add_button_visible := true }] }).2.2.1 2
        { ships_from := some "Amazon.com", sold_by := some "Amazon Warehouse",
          add_button_visible := true }
        rfl
        (by
          intro p hp
          rw [Option.some_inj] at hp
          subst hp
          decide)
        (by decide) (by decide)
        (by
          intro j hj o' ho'
          rcases j with _ | _ | j
          · simp only [List.getElem?_cons_zero, Option.some_inj] at ho'
            subst ho'
            decide
          · simp only [List.getElem?_cons_succ, List.getElem?_cons_zero,
              Option.some_inj] at ho'
            subst ho'
            decide
          · omega)
  · exact ((offer_traversal_order
        { no_offers_visible := false,
          pinned_offer := some
            { ships_from := some "Amazon.com", sold_by := some "Amazon Warehouse",
              add_button_visible := true },
          offer_list := [] }).2.1
        { ships_from := some "Amazon.com", sold_by := some "Amazon Warehouse",
          add_button_visible := true }
        rfl rfl).mpr (by decide)

lemma find_and_click_from_nil (k : Nat) : find_and_click_from [] k = (false, []) := rfl

lemma find_and_click_from_invisible (c : Candidate) (rest : List Candidate) (k : Nat)
    (h : c.visible = false) :
    find_and_click_from (c :: rest) k = find_and_click_from rest (k + 1) := by
  simp [find_and_click_from, h]

lemma find_and_click_from_click (c : Candidate) (rest : List Candidate) (k : Nat)
    (hv : c.visible = true) (hc : c.click_ok = true) :
    find_and_click_from (c :: rest) k = (true, [⟨k, true⟩]) := by
  simp [find_and_click_from, hv, hc]

lemma find_and_click_from_failed_click (c : Candidate) (rest : List Candidate) (k : Nat)
    (hv : c.visible = true) (hc : c.click_ok = false) :
    find_and_click_from (c :: rest) k =
      ((find_and_click_from rest (k + 1)).1,
        ⟨k, false⟩ :: (find_and_click_from rest (k + 1)).2) := by
  simp [find_and_click_from, hv, hc]

lemma find_and_click_from_spec (cs : List Candidate) :
    ∀ k : Nat,
      (List.countP (fun a => a.ok) (find_and_click_from cs k).2 ≤ 1) ∧
      ((find_and_click_from cs k).1 = true →
        ∃ t a, (find_and_click_from cs k).2 = t ++ [a] ∧ a.ok = true ∧
          ∀ x ∈ t, x.ok = false) ∧
      ((∀ c ∈ cs, c.visible = false) → find_and_click_from cs k = (false, [])) := by
  induction cs with
  | nil =>
    intro k
    refine ⟨by simp [find_and_click_from_nil], ?_, fun _ => rfl⟩
    intro h
    rw [find_and_click_from_nil] at h
    cases h
  | cons c rest ih =>
    intro k
    cases hv : c.visible with
    | false =>
      rw [find_and_click_from_invisible c rest k hv]
      refine ⟨(ih (k + 1)).1, (ih (k + 1)).2.1, ?_⟩
      intro h
      exact (ih (k + 1)).2.2 fun c' hc' => h c' (List.mem_cons_of_mem _ hc')
    | true =>
      cases hc : c.click_ok with
      | true =>
        rw [find_and_click_from_click c rest k hv hc]
        refine ⟨by simp, ?_, ?_⟩
        · intro _
          exact ⟨[], ⟨k, true⟩, rfl, rfl, by simp⟩
        · intro h
          exact absurd (h c (by simp)) (by simp [hv])
      | false =>
        rw [find_and_click_from_failed_click c rest k hv hc]
        refine ⟨?_, ?_, ?_⟩
        · simpa using (ih (k + 1)).1
        · intro h
          obtain ⟨t, a, htr, hok, hall⟩ := (ih (k + 1)).2.1 h
          refine ⟨⟨k, false⟩ :: t, a, by simp [htr], hok, ?_⟩
          intro x hx
          rcases List.mem_cons.mp hx with rfl | hx
          · rfl
          · exact hall x hx
        · intro h
          exact absurd (h c (by simp)) (by simp [hv])

/-- C8: `_find_and_click` completes at most one click per call; when it
returns true the completed click is the last entry of its attempt trace and
every earlier attempt failed (the scan stopped at the first completed
click); when no candidate is visible it returns false having clicked
nothing. -/
theorem find_and_click_single_action (cs : List Candidate) :
    (List.countP (fun a => a.ok) (find_and_click cs).2 ≤ 1) ∧
    ((find_and_click cs).1 = true →
      ∃ t a, (find_and_click cs).2 = t ++ [a] ∧ a.ok = true ∧
        ∀ x ∈ t, x.ok = false) ∧
    ((∀ c ∈ cs, c.visible = false) → find_and_click cs = (false, [])) :=
  find_and_click_from_spec cs 0

/-- C8 witness: a list with no visible candidate yields false and an empty
click trace. -/
theorem find_and_click_single_action_witness :
    find_and_click [⟨false, true⟩, ⟨false, false⟩, ⟨false, true⟩] = (false, []) :=
  (find_and_click_single_action _).2.2 (by decide)

/-- C9 counterexample: with `max_history = 0` the trimming slice
`history[-0:]` is Python for "the whole list", so one publish leaves 1
event retained, violating the "at most max_history" bound. -/
theorem event_history_zero_counterexample :
    (publish_history 0 []
        { ts := "t", type := .step, step := "s", url := "" }).length = 1 ∧
    ¬((publish_history 0 []
        { ts := "t", type := .step, step := "s", url := "" }).length ≤ 0) :=
  ⟨rfl, by decide⟩

/-- C9 (amended): whenever `max_history ≥ 1` (the constructor default is
100), every publish retains the last `max_history` events — the oldest are
discarded first — so the history, and therefore any `get_history` slice of
it, never exceeds `max_history` events. -/
theorem event_history_bounded (max_history : Nat) (h : List Event) (e : Event)
    (hmax : 1 ≤ max_history) :
    publish_history max_history h e =
      (h ++ [e]).drop (h.length + 1 - max_history) ∧
    (publish_history max_history h e).length ≤ max_history ∧
    ∀ limit, (get_history limit (publish_history max_history h e)).length
      ≤ max_history := by
  have hmax0 : (max_history == 0) = false := by
    simp only [beq_eq_false_iff_ne, ne_eq]
    omega
  have hdrop : publish_history max_history h e =
      (h ++ [e]).drop (h.length + 1 - max_history) := by
    unfold publish_history py_slice_last
    by_cases hlen : (h ++ [e]).length > max_history
    · rw [if_pos hlen, hmax0]
      simp only [Bool.false_eq_true, if_false, List.length_append,
        List.length_singleton]
    · rw [if_neg hlen]
      have hz : h.length + 1 - max_history = 0 := by
        simp only [List.length_append, List.length_singleton, Nat.not_lt] at hlen ⊢
        omega
      rw [hz, List.drop_zero]
  have hlen : (publish_history max_history h e).length ≤ max_history := by
    rw [hdrop, List.length_drop, List.length_append, List.length_singleton]
    omega
  refine ⟨hdrop, hlen, ?_⟩
  intro limit
  unfold get_history py_slice_last
  cases hl : (limit == 0) with
  | true =>
    rw [if_pos rfl]
    exact hlen
  | false =>
    rw [if_neg (by simp)]
    rw [List.length_drop]
    omega

/-- C9 witness: with the bound 2, publishing onto a full history keeps only
the two newest events. -/
theorem event_history_bounded_witness :
    publish_history 2
        [{ ts := "1", type := .step, step := "a", url := "" },
         { ts := "2", type := .step, step := "b", url := "" }]
        { ts := "3", type := .step, step := "c", url := "" } =
      [{ ts := "2", type := .step, step := "b", url := "" },
       { ts := "3", type := .step, step := "c", url := "" }] :=
  (event_history_bounded 2 _ _ (by decide)).1

lemma price_gate_mismatch (pg : ExecPage) (d expected : ℚ)
    (hd : pg.price.displayed_price = some d) (hne : d ≠ expected) :
    price_gate pg (some expected) =
      some { success := false, state := .error,
             message := price_mismatch_msg d expected } := by
  unfold price_gate step_validate_price
  rw [hd]
  simp only [if_pos hne]
  rfl

/-- The body of `execute` exits at the price gate when the displayed price
differs from the expected one, the trace holding at most the
see-all-buying-options click. -/
lemma execute_body_price_mismatch (confirm is_aod_url : Bool)
    (pg : ExecPage) (d expected : ℚ)
    (hstart : pg.start_fault = none)
    (hopen : pg.open_outcome = .loaded)
    (hav : pg.unavailable = false)
    (haod : (is_aod_url || (!is_aod_url && pg.see_all_options_visible)) = true →
      find_valid_amazon_offer_in_aod pg.aod ≠ none)
    (hstd : (is_aod_url || (!is_aod_url && pg.see_all_options_visible)) = false →
      (step_validate_seller pg.std_seller).success = true)
    (hd : pg.price.displayed_price = some d) (hne : d ≠ expected) :
    execute_body confirm is_aod_url (some expected) pg =
      (.ok { success := false, state := .error,
             message := price_mismatch_msg d expected },
       if !is_aod_url && pg.see_all_options_visible
         then [.click_see_all_options] else []) := by
  have hgate := price_gate_mismatch pg d expected hd hne
  unfold execute_body
  rw [hstart, hopen]
  simp only [step_open_product, Bool.not_true, Bool.false_eq_true, if_false, hav]
  cases heff : (is_aod_url || (!is_aod_url && pg.see_all_options_visible)) with
  | true =>
    obtain ⟨sel, hsel⟩ := Option.ne_none_iff_exists'.mp (haod heff)
    rw [hsel, hgate]
    cases is_aod_url with
    | true => simp
    | false =>
      simp only [Bool.true_or, Bool.false_or] at heff ⊢
      simp [heff]
  | false =>
    have hsv := hstd heff
    rw [hgate]
    cases is_aod_url with
    | true => cases heff
    | false =>
      simp only [Bool.false_or] at heff ⊢
      simp [heff, hsv]

/-- C6: with an expected price supplied and a displayed price differing
from it, a flow that reaches price validation terminates there with a
failure in state `error` carrying the price-mismatch message, and no
add-to-cart, AOD add-to-cart, or buy-now click is ever performed. -/
theorem price_mismatch_halts_before_cart (confirm is_aod_url : Bool)
    (pg : ExecPage) (d expected : ℚ)
    (hstart : pg.start_fault = none)
    (hopen : pg.open_outcome = .loaded)
    (hav : pg.unavailable = false)
    (haod : (is_aod_url || (!is_aod_url && pg.see_all_options_visible)) = true →
      find_valid_amazon_offer_in_aod pg.aod ≠ none)
    (hstd : (is_aod_url || (!is_aod_url && pg.see_all_options_visible)) = false →
      (step_validate_seller pg.std_seller).success = true)
    (hd : pg.price.displayed_price = some d) (hne : d ≠ expected) :
    (execute confirm is_aod_url (some expected) pg).1 =
      { success := false, state := .error,
        message := price_mismatch_msg d expected } ∧
    ∀ a ∈ (execute confirm is_aod_url (some expected) pg).2,
      a.is_cart_click = false := by
  have hbody := execute_body_price_mismatch confirm is_aod_url pg d expected
    hstart hopen hav haod hstd hd hne
  unfold execute
  rw [hbody]
  refine ⟨rfl, ?_⟩
  intro a ha
  cases hb : (!is_aod_url && pg.see_all_options_visible) with
  | true =>
    rw [hb] at ha
    simp only [if_true, List.mem_singleton] at ha
    rw [ha]
    rfl
  | false =>
    rw [hb] at ha
    simp only [Bool.false_eq_true, if_false, List.not_mem_nil] at ha

/-- C6 witness: seller "Amazon.com", expected price 99.99 but displayed
104.99 on a standard page — the flow fails at price validation and the
click trace is empty. -/
theorem price_mismatch_halts_before_cart_witness :
    (execute true false (some (99.99 : ℚ))
        { std_seller := { ships_from := some "Amazon.com",
                          sold_by := some "Amazon.com", raw_text := "" },
          price := { displayed_price := some 104.99,
                     raw_text := "$104.99" } }).1 =
      { success := false, state := .error,
        message := price_mismatch_msg 104.99 99.99 } :=
  (price_mismatch_halts_before_cart true false _ 104.99 99.99 rfl rfl rfl
    (fun h => by cases h) (fun _ => by decide) rfl (by norm_num)).1

/-- C7: any fault raised inside the flow body is caught at the flow
boundary: `execute` still returns a `FlowResult`, with `success = false`,
state `error`, and a message carrying the fault text — the fault is never
propagated to the caller. -/
theorem execute_catches_all_faults (confirm is_aod_url : Bool)
    (expected : Option ℚ) (pg : ExecPage) (e : String)
    (hf : (execute_body confirm is_aod_url expected pg).1 = .error e) :
    (execute confirm is_aod_url expected pg).1 = flow_exception_result e ∧
    (execute confirm is_aod_url expected pg).1.success = false ∧
    (execute confirm is_aod_url expected pg).1.state = .error ∧
    (execute confirm is_aod_url expected pg).1.message
      = "Flow exception: " ++ e := by
  have hmain : (execute confirm is_aod_url expected pg).1
      = flow_exception_result e := by
    unfold execute
    rcases hbody : execute_body confirm is_aod_url expected pg with ⟨res, tr⟩
    rw [hbody] at hf
    simp only at hf
    rw [hf]
  exact ⟨hmain, by rw [hmain]; rfl, by rw [hmain]; rfl, by rw [hmain]; rfl⟩

/-- C7 witness: a defect raised while acquiring the page is converted into
the boundary failure result. -/
theorem execute_catches_all_faults_witness :
    (execute true false none { start_fault := some "browser crashed" }).1 =
      flow_exception_result "browser crashed" :=
  (execute_catches_all_faults true false none
    { start_fault := some "browser crashed" } "browser crashed" rfl).1

end Ezcopper
